import Mathlib

set_option maxHeartbeats 1000000

/-!
Shallow embedding of the training orchestration and checkpoint-lifecycle
logic of src/train.py (ComposeRecognition). Pure data is modelled with
Nat, Int, ℚ and ℝ; Python dicts are association lists in insertion order;
fallible operations return Option.
-/

/-- Does the second character list start with the first one. -/
def listStartsWith : List Char → List Char → Bool
  | [], _ => true
  | _ :: _, [] => false
  | a :: as, b :: bs => a == b && listStartsWith as bs

/-- Is the needle a contiguous sublist of the hay. -/
def listContainsSub (needle : List Char) : List Char → Bool
  | [] => listStartsWith needle []
  | c :: t => listStartsWith needle (c :: t) || listContainsSub needle t

/-- Python substring containment, as in the expression `needle in hay`. -/
def strContains (hay needle : String) : Bool :=
  listContainsSub needle.toList hay.toList

/-- A tensor: its shape plus an abstract content tag standing for the numeric
payload (the claims only compare whole payloads, never individual entries). -/
structure Tensor where
  shape : List Nat
  data : Int
deriving DecidableEq, Repr

/-- A parameter state map: a Python dict from names to tensors, kept in
insertion order. -/
abbrev StateDict := List (String × Tensor)

/-- Dict lookup by key (first occurrence). -/
def dictGet : StateDict → String → Option Tensor
  | [], _ => none
  | (k2, v) :: t, k => if k2 = k then some v else dictGet t k

/-- train.py lines 174-175: keep exactly the pretrained entries whose key
exists in the destination dict with identical tensor size. -/
def transplantFilter (pretrain model_dict : StateDict) : StateDict :=
  pretrain.filter (fun kv =>
    match dictGet model_dict kv.1 with
    | some t => decide (t.shape = kv.2.shape)
    | none => false)

/-- Python `dict.update`: values of existing keys are overwritten in place,
new keys are appended in order. -/
def dictUpdate (base upd : StateDict) : StateDict :=
  base.map (fun kv =>
    match dictGet upd kv.1 with
    | some v => (kv.1, v)
    | none => kv)
  ++ upd.filter (fun kv => (dictGet base kv.1).isNone)

/-- train.py lines 173-177: the weight-transplant load. The destination
state dict is updated with the size-filtered pretrained entries and then
loaded back into the model. -/
def loadWeights (pretrain model_dict : StateDict) : StateDict :=
  dictUpdate model_dict (transplantFilter pretrain model_dict)

/-- Abstract optimizer state (train.py only copies it around). -/
structure OptState where
  data : Int
deriving DecidableEq, Repr

/-- A checkpoint file as written and read by train.py: a dict whose keys
other than `state_dict` may be absent (train.py lines 287-298, 305-314). -/
structure Checkpoint where
  state_dict : StateDict
  optimizer : Option OptState := none
  step : Option Nat := none
  best_accuracy : Option ℚ := none
  best_norm_ED : Option ℚ := none
deriving DecidableEq

/-- train.py line 162: the initial best-accuracy sentinel. -/
def init_best_accuracy : ℚ := -1

/-- train.py line 163: the initial best-edit-distance sentinel, 1e+6. -/
def init_best_norm_ED : ℚ := 1000000

/-- The in-memory state produced by the full-resume branch. -/
structure ResumeState where
  model : StateDict
  start_iter : Nat
  optimizer : OptState
  best_accuracy : ℚ
  best_norm_ED : ℚ
deriving DecidableEq

/-- train.py lines 181-199: full resume. The parameter map is applied
unconditionally; `checkpoint[step]` is read without a guard, so its
absence raises a KeyError (modelled as `none`); the optimizer state and
the two best metrics are restored only when their keys are present. -/
def resumeFromCheckpoint (ckpt : Checkpoint) (optim : OptState)
    (best_accuracy best_norm_ED : ℚ) : Option ResumeState :=
  match ckpt.step with
  | none => none
  | some s => some {
      model := ckpt.state_dict
      start_iter := s + 1
      optimizer := ckpt.optimizer.getD optim
      best_accuracy := ckpt.best_accuracy.getD best_accuracy
      best_norm_ED := ckpt.best_norm_ED.getD best_norm_ED }

/-- train.py line 207: the iterations the loop executes,
`range(start_iter, num_iter)`. -/
def trainingIterations (start_iter num_iter : Nat) : List Nat :=
  List.range' start_iter (num_iter - start_iter)

/-- train.py line 253: the validation trigger
`i > 0 and (i+1) % valInterval == 0`. -/
def validationRuns (i valInterval : Nat) : Bool :=
  decide (0 < i) && ((i + 1) % valInterval == 0)

/-- Number of validation cycles over a full run starting at iteration 0. -/
def numValidations (num_iter valInterval : Nat) : Nat :=
  ((trainingIterations 0 num_iter).filter (fun i => validationRuns i valInterval)).length

/-- train.py lines 290-292: the payload written to `best_accuracy.pth`; it
holds only the improved metric and the parameter map. -/
def bestAccuracyCheckpoint (ba : ℚ) (sd : StateDict) : Checkpoint :=
  { state_dict := sd, best_accuracy := some ba }

/-- train.py lines 296-298: the payload written to `best_norm_ED.pth`; it
holds only the improved metric and the parameter map. -/
def bestNormEDCheckpoint (ned : ℚ) (sd : StateDict) : Checkpoint :=
  { state_dict := sd, best_norm_ED := some ned }

/-- train.py lines 309-314: the periodic full checkpoint written every 1000
iterations. -/
def periodicCheckpoint (sd : StateDict) (o : OptState) (i : Nat) (ba ned : ℚ) : Checkpoint :=
  { state_dict := sd, optimizer := some o, step := some i,
    best_accuracy := some ba, best_norm_ED := some ned }

/-- The transplant entry point extracts the parameter map from a dict-shaped
checkpoint (train.py lines 169-170) and applies the size-filtered load. -/
def transplantFromCheckpoint (c : Checkpoint) (model_dict : StateDict) : StateDict :=
  loadWeights c.state_dict model_dict

/-- The two best-metric trackers of the training loop. -/
structure BestState where
  best_accuracy : ℚ
  best_norm_ED : ℚ
deriving DecidableEq

/-- The trackers as initialized at train.py lines 162-163. -/
def initBestState : BestState := ⟨init_best_accuracy, init_best_norm_ED⟩

/-- train.py lines 286-298: one validation outcome updates the trackers and
produces the checkpoint writes it triggers, as target-file and payload pairs. -/
def validationUpdate (sd : StateDict) (st : BestState) (acc ned : ℚ) :
    BestState × List (String × Checkpoint) :=
  (⟨if st.best_accuracy < acc then acc else st.best_accuracy,
    if ned < st.best_norm_ED then ned else st.best_norm_ED⟩,
   (if st.best_accuracy < acc then
      [("best_accuracy.pth", bestAccuracyCheckpoint acc sd)] else [])
   ++ (if ned < st.best_norm_ED then
      [("best_norm_ED.pth", bestNormEDCheckpoint ned sd)] else []))

/-- Folding a whole run of validation outcomes (accuracy, edit distance)
through the tracker update, collecting every checkpoint write in order. -/
def runValidations (sd : StateDict) (st : BestState) :
    List (ℚ × ℚ) → BestState × List (String × Checkpoint)
  | [] => (st, [])
  | (acc, ned) :: rest =>
      let r1 := validationUpdate sd st acc ned
      let r2 := runValidations sd r1.1 rest
      (r2.1, r1.2 ++ r2.2)

/-- The Adam optimizer object built at train.py lines 137-138. Python allows
setting a fresh attribute on it (line 205 does exactly that), modelled by the
field below; nothing in Adam itself ever reads it. -/
structure Adam where
  n_current_steps_attr : Option Nat := none
deriving DecidableEq

/-- Modelled from the spec: the warmup scheduler of Optim.py (`ScheduledOptim`)
is not under src/. Per the spec it wraps the inner optimizer and keeps an
internal step counter used to compute the warmup learning rate; the counter
starts at zero and advances with each scheduled step. -/
structure ScheduledOptim where
  optimizer : Adam
  n_warmup_steps : Nat
  n_current_steps : Nat
deriving DecidableEq

/-- Construction of the wrapper at train.py line 139: counter starts at 0. -/
def ScheduledOptim.build (o : Adam) (n_warmup : Nat) : ScheduledOptim :=
  ⟨o, n_warmup, 0⟩

/-- train.py lines 136-140 and 204-205 on the warmup-scheduled Transformer
path: the wrapper is built around the Adam object, and after a resume the
statement `optimizer.n_current_steps = start_iter` assigns an attribute on
the inner Adam object (the name `optimizer` is bound to the Adam instance,
not to `optimizer_schedule`), which the wrapper shares by reference. -/
def schedulerAfterResume (n_warmup start_iter : Nat) : ScheduledOptim :=
  let adam : Adam := {}
  let sched := ScheduledOptim.build adam n_warmup
  let adam2 : Adam := { n_current_steps_attr := some start_iter }
  { sched with optimizer := adam2 }

/-- torch.nn.init.constant_: fills the tensor with a constant; total. -/
def init_constant (t : Tensor) (c : Int) : Tensor := { t with data := c }

/-- torch.nn.init.kaiming_normal_: external collaborator; it raises on
tensors with fewer than two dimensions (fan-in cannot be computed), which is
the failure the source catches. `draw` is the sampled random payload. -/
def kaiming_normal (draw : Int) (t : Tensor) : Option Tensor :=
  if t.shape.length < 2 then none else some { t with data := draw }

/-- train.py lines 98-110: per-parameter weight initialization. Names holding
the already-initialized marker are skipped; otherwise the try block zeroes
bias-named tensors, applies Kaiming-normal to weight-named tensors, and a
raised exception falls to the handler, which constant-fills weight-named
tensors with 1 and swallows the error. -/
def initParam (name : String) (draw : Int) (t : Tensor) : Tensor :=
  if strContains name "localization_fc2" then t
  else if strContains name "bias" then init_constant t 0
  else if strContains name "weight" then
    match kaiming_normal draw t with
    | some t2 => t2
    | none => { t with data := 1 }
  else t

/-- The three gradient-update behaviors of train.py lines 241-248. -/
inductive GradUpdate where
  | scaleThenStep : GradUpdate
  | stepNoClip : GradUpdate
  | clipThenStep : ℚ → GradUpdate
deriving DecidableEq

/-- train.py lines 241-248: the per-step gradient-update dispatch. -/
def gradientPolicy (sequenceModeling : String) (use_scheduled_optim : Bool)
    (grad_clip : ℚ) : GradUpdate :=
  if strContains sequenceModeling "Transformer" && use_scheduled_optim then
    .scaleThenStep
  else if strContains sequenceModeling "Transformer" then
    .stepNoClip
  else
    .clipThenStep grad_clip

/-- train.py lines 349-350: the default gradient-clipping threshold. -/
def default_grad_clip : ℚ := 5

/-- The decoding families of the spec data model. -/
inductive DecodingVariant where
  | AlignmentFree : DecodingVariant
  | Attention : DecodingVariant
  | Autoregressive : DecodingVariant
deriving DecidableEq

/-- train.py lines 82-87 (and the parallel branches at 113-119, 213-236):
the decoding variant determined by the configuration strings. -/
def decodingVariant (sequenceModeling prediction : String) : DecodingVariant :=
  if strContains sequenceModeling "Transformer" then .Autoregressive
  else if strContains prediction "CTC" then .AlignmentFree
  else .Attention

/-- Modelled from the spec: the padding-index constant of the external
Constants module (modules/transformer_component/Constants.py, not under
src/), the designated padding index ignored by the losses. -/
def PAD : Nat := 0

/-- train.py line 47: the fixed label-smoothing constant. -/
noncomputable def eps : ℝ := 1 / 10

/-- torch log_softmax along the class axis. -/
noncomputable def logSoftmax {K : ℕ} (p : Fin K → ℝ) (j : Fin K) : ℝ :=
  p j - Real.log (∑ i, Real.exp (p i))

/-- train.py line 50: the scattered one-hot indicator. -/
def one_hot {K : ℕ} (g j : Fin K) : ℝ :=
  if j = g then 1 else 0

/-- train.py line 51: the smoothed target distribution. -/
noncomputable def smoothedTarget {K : ℕ} (g j : Fin K) : ℝ :=
  one_hot g j * (1 - eps) + (1 - one_hot g j) * (eps / ((K : ℝ) - 1))

/-- train.py line 54: the positions whose gold index is not the padding
index. -/
def nonPad {n K : ℕ} (gold : Fin n → Fin K) : Finset (Fin n) :=
  Finset.univ.filter (fun i => (gold i : ℕ) ≠ PAD)

/-- torch F.cross_entropy with `ignore_index = PAD` and mean reduction:
the mean of the negative log-softmax at the gold class over non-padding
positions. -/
noncomputable def cross_entropy {n K : ℕ} (pred : Fin n → Fin K → ℝ)
    (gold : Fin n → Fin K) : ℝ :=
  (∑ i ∈ nonPad gold, -(logSoftmax (pred i) (gold i))) / ((nonPad gold).card : ℝ)

/-- train.py lines 41-61: the Transformer loss. With smoothing, the negative
dot product of the smoothed target distribution with the log-softmax
predictions, masked to non-padding positions and averaged over them;
without smoothing, plain padding-ignoring cross entropy. -/
noncomputable def transformer_loss {n K : ℕ} (pred : Fin n → Fin K → ℝ)
    (gold : Fin n → Fin K) : Bool → ℝ
  | true =>
      (∑ i ∈ nonPad gold, -(∑ j, smoothedTarget (gold i) j * logSoftmax (pred i) j))
        / ((nonPad gold).card : ℝ)
  | false => cross_entropy pred gold

/-! ## Claim theorems -/

/-- C1: for every resume from a full checkpoint containing a step field s,
resume succeeds, sets the resumed iteration to s + 1, and the first training
iteration executed after resume is s + 1. -/
theorem resume_next_iteration_C1 (ckpt : Checkpoint) (o : OptState) (ba be : ℚ)
    (s num_iter : Nat) (hs : ckpt.step = some s) (hn : s + 1 < num_iter) :
    (resumeFromCheckpoint ckpt o ba be).isSome = true
    ∧ (resumeFromCheckpoint ckpt o ba be).map (·.start_iter) = some (s + 1)
    ∧ (trainingIterations (s + 1) num_iter).head? = some (s + 1) := by
  refine ⟨by simp [resumeFromCheckpoint, hs], by simp [resumeFromCheckpoint, hs], ?_⟩
  unfold trainingIterations
  obtain ⟨k, hk⟩ : ∃ k, num_iter - (s + 1) = k + 1 := ⟨num_iter - (s + 1) - 1, by omega⟩
  rw [hk]
  rfl

/-- Concrete checkpoint carrying step 999,
as in the spec example for resume. -/
def c1_ckpt : Checkpoint := { state_dict := [], step := some 999 }

/-- C1 witness: resuming from a checkpoint saved with step 999 makes the
next executed iteration 1000. -/
theorem resume_next_iteration_C1_witness :
    (c1_ckpt.step = some 999 ∧ 999 + 1 < 300000)
    ∧ ((resumeFromCheckpoint c1_ckpt ⟨0⟩ init_best_accuracy init_best_norm_ED).isSome = true
       ∧ (resumeFromCheckpoint c1_ckpt ⟨0⟩ init_best_accuracy init_best_norm_ED).map
           (·.start_iter) = some (999 + 1)
       ∧ (trainingIterations (999 + 1) 300000).head? = some (999 + 1)) :=
  ⟨⟨rfl, by decide⟩,
   resume_next_iteration_C1 c1_ckpt ⟨0⟩ init_best_accuracy init_best_norm_ED 999 300000
     rfl (by decide)⟩

/-- A checkpoint with a parameter map and a best-accuracy value but no step
key. -/
def c2_noStep : Checkpoint :=
  { state_dict := [("Prediction.weight", ⟨[38, 512], 3⟩)],
    best_accuracy := some (87 / 100) }

/-- C2 counterexample: the claim says a resume with a parameter map but no
iteration field succeeds; in the code `checkpoint[step]` is read without a
guard, so this concrete resume raises a KeyError (modelled as `none`). -/
theorem resume_optional_fields_C2_counterexample :
    resumeFromCheckpoint c2_noStep ⟨0⟩ init_best_accuracy init_best_norm_ED = none := rfl

/-- C2 amended: for a full-resume checkpoint whose step field is present,
every other field except the parameter map is optional and its absence is
handled without failure; an absent optimizer keeps the live optimizer state,
and an absent best-metric key keeps its initialized sentinel (best accuracy
-1, best edit distance 1e6), while present keys overwrite them. -/
theorem resume_optional_fields_C2 (ckpt : Checkpoint) (o : OptState) (s : Nat)
    (hs : ckpt.step = some s) :
    (resumeFromCheckpoint ckpt o init_best_accuracy init_best_norm_ED).isSome = true
    ∧ (ckpt.optimizer = none →
        (resumeFromCheckpoint ckpt o init_best_accuracy init_best_norm_ED).map
          (·.optimizer) = some o)
    ∧ (ckpt.best_accuracy = none →
        (resumeFromCheckpoint ckpt o init_best_accuracy init_best_norm_ED).map
          (·.best_accuracy) = some init_best_accuracy)
    ∧ (ckpt.best_norm_ED = none →
        (resumeFromCheckpoint ckpt o init_best_accuracy init_best_norm_ED).map
          (·.best_norm_ED) = some init_best_norm_ED)
    ∧ (∀ a, ckpt.best_accuracy = some a →
        (resumeFromCheckpoint ckpt o init_best_accuracy init_best_norm_ED).map
          (·.best_accuracy) = some a)
    ∧ (∀ e, ckpt.best_norm_ED = some e →
        (resumeFromCheckpoint ckpt o init_best_accuracy init_best_norm_ED).map
          (·.best_norm_ED) = some e) := by
  refine ⟨by simp [resumeFromCheckpoint, hs], fun h => ?_, fun h => ?_, fun h => ?_,
    fun a h => ?_, fun e h => ?_⟩ <;>
    simp [resumeFromCheckpoint, hs, h]

/-- Concrete checkpoint with step present, best accuracy 0.87 and no
best edit-distance key, as in the spec example. -/
def c2_ckpt : Checkpoint :=
  { state_dict := [("Prediction.weight", ⟨[38, 512], 3⟩)],
    step := some 5, best_accuracy := some (87 / 100) }

/-- C2 witness: resuming with best accuracy 0.87 and no best edit-distance
key sets the accuracy best to 0.87 and leaves the edit-distance best at its
initialized sentinel. -/
theorem resume_optional_fields_C2_witness :
    c2_ckpt.step = some 5
    ∧ (resumeFromCheckpoint c2_ckpt ⟨0⟩ init_best_accuracy init_best_norm_ED).isSome = true
    ∧ (resumeFromCheckpoint c2_ckpt ⟨0⟩ init_best_accuracy init_best_norm_ED).map
        (·.best_accuracy) = some (87 / 100)
    ∧ (resumeFromCheckpoint c2_ckpt ⟨0⟩ init_best_accuracy init_best_norm_ED).map
        (·.best_norm_ED) = some init_best_norm_ED :=
  ⟨rfl, (resume_optional_fields_C2 c2_ckpt ⟨0⟩ 5 rfl).1,
   (resume_optional_fields_C2 c2_ckpt ⟨0⟩ 5 rfl).2.2.2.2.1 (87 / 100) rfl,
   (resume_optional_fields_C2 c2_ckpt ⟨0⟩ 5 rfl).2.2.2.1 rfl⟩

/-- C3: on the warmup-scheduled Transformer path, after resuming to
iteration 500 the wrapper keeps its internal step counter at 0, not 500:
train.py line 205 assigns the attribute on the inner Adam object rather
than on the ScheduledOptim wrapper, so the warmup counter is reset. -/
theorem scheduler_counter_C3 :
    (schedulerAfterResume 16000 500).n_current_steps = 0
    ∧ (schedulerAfterResume 16000 500).optimizer.n_current_steps_attr = some 500
    ∧ ¬ (schedulerAfterResume 16000 500).n_current_steps = 500 :=
  ⟨rfl, rfl, by decide⟩

/-- C6 counterexample: at iteration 0 with valInterval 1 the claimed
condition (i+1) mod valInterval == 0 holds, yet the code does not run a
validation cycle because of the additional i > 0 guard. -/
theorem validation_cadence_C6_counterexample :
    (0 + 1) % 1 = 0 ∧ validationRuns 0 1 = false := by decide

/-- C6 amended: a validation cycle runs after step i exactly when i > 0 and
(i+1) mod valInterval == 0; with valInterval 10 and num_iter 30 from
iteration 0 exactly 3 validation cycles occur. -/
theorem validation_cadence_C6 :
    (∀ i valInterval, validationRuns i valInterval = true
      ↔ (0 < i ∧ (i + 1) % valInterval = 0))
    ∧ numValidations 30 10 = 3 := by
  refine ⟨fun i v => ?_, by decide⟩
  simp [validationRuns]

/-- C8: the gradient-update policy of every training step is a function of
the decoding variant and the warmup flag alone: warmup-scheduled
Autoregressive performs the combined scale-then-step with no clipping, plain
Autoregressive steps without clipping, and every other variant clips the
gradient norm to the configured threshold, whose default is 5, before
stepping. -/
theorem gradient_policy_C8 (sequenceModeling prediction : String)
    (use_scheduled_optim : Bool) (grad_clip : ℚ) :
    gradientPolicy sequenceModeling use_scheduled_optim grad_clip =
      (match decodingVariant sequenceModeling prediction, use_scheduled_optim with
       | .Autoregressive, true => .scaleThenStep
       | .Autoregressive, false => .stepNoClip
       | .AlignmentFree, _ => .clipThenStep grad_clip
       | .Attention, _ => .clipThenStep grad_clip)
    ∧ default_grad_clip = 5 := by
  refine ⟨?_, rfl⟩
  unfold gradientPolicy decodingVariant
  cases hc1 : strContains sequenceModeling "Transformer" <;>
    cases hc2 : strContains prediction "CTC" <;>
      cases use_scheduled_optim <;> simp

/-- C9: per-parameter initialization follows exactly the order skip-marker,
bias rule, weight rule, fallback: marked names are left unchanged; otherwise
bias-named tensors are zero-filled, weight-named tensors get the
Kaiming-normal draw, and when that scheme raises (fewer than two
dimensions) the tensor is constant-filled with 1 and the exception is
swallowed; names matching neither rule are untouched. -/
theorem weight_init_C9 (name : String) (draw : Int) (t : Tensor) :
    (strContains name "localization_fc2" = true → initParam name draw t = t)
    ∧ (strContains name "localization_fc2" = false →
        strContains name "bias" = true →
        initParam name draw t = { t with data := 0 })
    ∧ (strContains name "localization_fc2" = false →
        strContains name "bias" = false → strContains name "weight" = true →
        2 ≤ t.shape.length →
        initParam name draw t = { t with data := draw })
    ∧ (strContains name "localization_fc2" = false →
        strContains name "bias" = false → strContains name "weight" = true →
        t.shape.length < 2 →
        initParam name draw t = { t with data := 1 })
    ∧ (strContains name "localization_fc2" = false →
        strContains name "bias" = false → strContains name "weight" = false →
        initParam name draw t = t) := by
  refine ⟨fun h1 => ?_, fun h1 h2 => ?_, fun h1 h2 h3 h4 => ?_,
    fun h1 h2 h3 h4 => ?_, fun h1 h2 h3 => ?_⟩
  · simp [initParam, h1]
  · simp [initParam, init_constant, h1, h2]
  · simp [initParam, kaiming_normal, h1, h2, h3, Nat.not_lt.mpr h4]
  · simp [initParam, kaiming_normal, h1, h2, h3, h4]
  · simp [initParam, h1, h2, h3]

/-- C9 witness: a parameter of the geometric-transform localization
sub-layer is skipped and keeps its value. -/
theorem weight_init_C9_witness :
    strContains "Transformation.LocalizationNetwork.localization_fc2.weight"
      "localization_fc2" = true
    ∧ initParam "Transformation.LocalizationNetwork.localization_fc2.weight" 7
        ⟨[20, 2], 5⟩ = ⟨[20, 2], 5⟩ :=
  ⟨by decide,
   (weight_init_C9 "Transformation.LocalizationNetwork.localization_fc2.weight" 7
     ⟨[20, 2], 5⟩).1 (by decide)⟩

/-- C10: the two best-metric checkpoints contain only the improved metric
and the parameter map: no step field, no optimizer state, and not the other
metric; hence each is usable as a transplant source (the transplant path
extracts its parameter map) but not as a full resume source, because resume
reads the step field and fails on its absence. -/
theorem best_checkpoint_contents_C10 (ba ned : ℚ) (sd m : StateDict)
    (o : OptState) (a b : ℚ) :
    (bestAccuracyCheckpoint ba sd).step = none
    ∧ (bestAccuracyCheckpoint ba sd).optimizer = none
    ∧ (bestAccuracyCheckpoint ba sd).best_norm_ED = none
    ∧ (bestAccuracyCheckpoint ba sd).best_accuracy = some ba
    ∧ (bestAccuracyCheckpoint ba sd).state_dict = sd
    ∧ (bestNormEDCheckpoint ned sd).step = none
    ∧ (bestNormEDCheckpoint ned sd).optimizer = none
    ∧ (bestNormEDCheckpoint ned sd).best_accuracy = none
    ∧ (bestNormEDCheckpoint ned sd).best_norm_ED = some ned
    ∧ (bestNormEDCheckpoint ned sd).state_dict = sd
    ∧ resumeFromCheckpoint (bestAccuracyCheckpoint ba sd) o a b = none
    ∧ resumeFromCheckpoint (bestNormEDCheckpoint ned sd) o a b = none
    ∧ transplantFromCheckpoint (bestAccuracyCheckpoint ba sd) m = loadWeights sd m
    ∧ transplantFromCheckpoint (bestNormEDCheckpoint ned sd) m = loadWeights sd m :=
  ⟨rfl, rfl, rfl, rfl, rfl, rfl, rfl, rfl, rfl, rfl, rfl, rfl, rfl, rfl⟩

/-- Looking up a key that is not among the keys of the dict yields nothing. -/
theorem dictGet_eq_none_of_not_mem (l : StateDict) (k : String)
    (h : k ∉ l.map Prod.fst) : dictGet l k = none := by
  induction l with
  | nil => rfl
  | cons hd tl ih =>
      obtain ⟨k2, v⟩ := hd
      simp only [List.map_cons, List.mem_cons] at h
      push_neg at h
      have hk : k2 ≠ k := fun e => h.1 e.symm
      simp [dictGet, hk, ih h.2]

/-- Filtering cannot make an absent key present. -/
theorem dictGet_filter_none (l : StateDict) (p : String × Tensor → Bool)
    (k : String) (h : dictGet l k = none) : dictGet (l.filter p) k = none := by
  induction l with
  | nil => rfl
  | cons hd tl ih =>
      obtain ⟨k2, v⟩ := hd
      by_cases hk : k2 = k
      · subst hk; simp [dictGet] at h
      · cases hp2 : p (k2, v) <;> simp_all [List.filter_cons, dictGet, hk]

/-- Lookup through an append tries the left dict first. -/
theorem dictGet_append (a b : StateDict) (k : String) :
    dictGet (a ++ b) k =
      match dictGet a k with
      | some v => some v
      | none => dictGet b k := by
  induction a with
  | nil => rfl
  | cons hd tl ih =>
      obtain ⟨k2, v⟩ := hd
      by_cases hk : k2 = k <;> simp [dictGet, hk, ih]

/-- Lookup through the value-overwriting map of `dictUpdate`: present keys
take the updated value when one exists, otherwise the old one; absent keys
stay absent. -/
theorem dictGet_dictUpdateMap (base upd : StateDict) (k : String) :
    dictGet (base.map (fun kv =>
      match dictGet upd kv.1 with
      | some v => (kv.1, v)
      | none => kv)) k =
      match dictGet base k with
      | some t =>
          match dictGet upd k with
          | some v => some v
          | none => some t
      | none => none := by
  induction base with
  | nil => rfl
  | cons hd tl ih =>
      obtain ⟨k2, v⟩ := hd
      simp only [List.map_cons]
      by_cases hk : k2 = k
      · subst hk
        cases h2 : dictGet upd k2 <;> simp [dictGet, h2]
      · cases h2 : dictGet upd k2 <;> simp [dictGet, hk, h2, ih]

/-- Lookup in the size-filtered pretrained dict: a key survives exactly when
it is present in both dicts with identical shapes (for key-unique pretrained
dicts). -/
theorem dictGet_transplantFilter (pretrain model_dict : StateDict) (k : String)
    (hp : (pretrain.map Prod.fst).Nodup) :
    dictGet (transplantFilter pretrain model_dict) k =
      match dictGet pretrain k, dictGet model_dict k with
      | some v, some t => if t.shape = v.shape then some v else none
      | _, _ => none := by
  induction pretrain with
  | nil => cases dictGet model_dict k <;> rfl
  | cons hd tl ih =>
      obtain ⟨k2, v⟩ := hd
      simp only [List.map_cons, List.nodup_cons] at hp
      by_cases hk : k2 = k
      · subst hk
        have htl : dictGet tl k2 = none := dictGet_eq_none_of_not_mem tl k2 hp.1
        have htlf : dictGet (transplantFilter tl model_dict) k2 = none :=
          dictGet_filter_none tl _ k2 htl
        simp only [transplantFilter] at htlf
        cases hm : dictGet model_dict k2 with
        | none => simp [transplantFilter, List.filter_cons, hm, dictGet, htlf]
        | some t =>
            by_cases hs : t.shape = v.shape
            · simp [transplantFilter, List.filter_cons, hm, hs, dictGet]
            · simp [transplantFilter, List.filter_cons, hm, hs, dictGet, htlf]
      · have ihx := ih hp.2
        cases hm : dictGet model_dict k2 with
        | none => simpa [transplantFilter, List.filter_cons, hm, dictGet, hk] using ihx
        | some t =>
            by_cases hs : t.shape = v.shape
            · simpa [transplantFilter, List.filter_cons, hm, hs, dictGet, hk] using ihx
            · simpa [transplantFilter, List.filter_cons, hm, hs, dictGet, hk] using ihx

/-- C4: for every weight-transplant load, exactly the checkpoint entries
whose name exists in the destination with an exactly matching shape are
applied, every other destination parameter keeps its pre-load value, and
non-matching checkpoint keys are dropped without error. -/
theorem transplant_frame_C4 (pretrain model_dict : StateDict)
    (hp : (pretrain.map Prod.fst).Nodup) (k : String) :
    dictGet (loadWeights pretrain model_dict) k =
      match dictGet model_dict k, dictGet pretrain k with
      | some t, some v => if t.shape = v.shape then some v else some t
      | some t, none => some t
      | none, _ => none := by
  have hfilter := dictGet_transplantFilter pretrain model_dict k hp
  unfold loadWeights dictUpdate
  rw [dictGet_append, dictGet_dictUpdateMap]
  rcases hm : dictGet model_dict k with _ | t <;>
    rcases hq : dictGet pretrain k with _ | v <;>
      rw [hm, hq] at hfilter <;> simp only at hfilter
  · have h0 : dictGet ((transplantFilter pretrain model_dict).filter
        (fun kv => (dictGet model_dict kv.1).isNone)) k = none :=
      dictGet_filter_none _ _ _ hfilter
    simp [hfilter, h0]
  · have h0 : dictGet ((transplantFilter pretrain model_dict).filter
        (fun kv => (dictGet model_dict kv.1).isNone)) k = none :=
      dictGet_filter_none _ _ _ hfilter
    simp [hfilter, h0]
  · simp [hfilter]
  · by_cases hs : t.shape = v.shape
    · simp [hfilter, hs]
    · simp only [if_neg hs] at hfilter
      simp [hfilter, hs]

/-- Destination dict of the C4 witness: two parameters. -/
def c4_model : StateDict := [("head.weight", ⟨[10, 4], 1⟩), ("head.bias", ⟨[10], 2⟩)]

/-- Source dict of the C4 witness: one exact shape match and one shape
mismatch against the destination. -/
def c4_pretrain : StateDict := [("head.weight", ⟨[10, 4], 9⟩), ("head.bias", ⟨[7], 8⟩)]

/-- C4 witness: with one matching and one mismatching key, the transplant
load applies only the matching key and keeps the mismatching destination
parameter at its pre-load value. -/
theorem transplant_frame_C4_witness :
    (c4_pretrain.map Prod.fst).Nodup
    ∧ dictGet (loadWeights c4_pretrain c4_model) "head.weight" =
        (match dictGet c4_model "head.weight", dictGet c4_pretrain "head.weight" with
         | some t, some v => if t.shape = v.shape then some v else some t
         | some t, none => some t
         | none, _ => none)
    ∧ dictGet (loadWeights c4_pretrain c4_model) "head.bias" =
        (match dictGet c4_model "head.bias", dictGet c4_pretrain "head.bias" with
         | some t, some v => if t.shape = v.shape then some v else some t
         | some t, none => some t
         | none, _ => none) :=
  ⟨by decide, transplant_frame_C4 c4_pretrain c4_model (by decide) "head.weight",
   transplant_frame_C4 c4_pretrain c4_model (by decide) "head.bias"⟩

/-- One validation outcome never lowers the accuracy best and never raises
the edit-distance best. -/
theorem validationUpdate_mono (sd : StateDict) (st : BestState) (acc ned : ℚ) :
    st.best_accuracy ≤ (validationUpdate sd st acc ned).1.best_accuracy
    ∧ (validationUpdate sd st acc ned).1.best_norm_ED ≤ st.best_norm_ED := by
  unfold validationUpdate
  constructor <;> dsimp only <;> split_ifs with h <;> simp [le_of_lt, h]

/-- Across any run of validation outcomes the accuracy best never decreases
and the edit-distance best never increases. -/
theorem runValidations_mono (sd : StateDict) (st : BestState) (vals : List (ℚ × ℚ)) :
    st.best_accuracy ≤ (runValidations sd st vals).1.best_accuracy
    ∧ (runValidations sd st vals).1.best_norm_ED ≤ st.best_norm_ED := by
  induction vals generalizing st with
  | nil => simp [runValidations]
  | cons hd tl ih =>
      obtain ⟨acc, ned⟩ := hd
      simp only [runValidations]
      exact ⟨le_trans (validationUpdate_mono sd st acc ned).1
          (ih (validationUpdate sd st acc ned).1).1,
        le_trans (ih (validationUpdate sd st acc ned).1).2
          (validationUpdate_mono sd st acc ned).2⟩

/-- C5: best accuracy never decreases and best edit distance never increases
across every run; a best-accuracy checkpoint is written exactly when the
current accuracy strictly exceeds the running best, a best-edit-distance
checkpoint exactly when the current edit distance is strictly below its
running best, each condition mentioning only its own metric; and the
validation accuracy sequence 0.5, 0.6, 0.55, 0.7 produces exactly three
best-accuracy writes. -/
theorem best_tracking_C5 :
    (∀ sd st vals, st.best_accuracy ≤ (runValidations sd st vals).1.best_accuracy
       ∧ (runValidations sd st vals).1.best_norm_ED ≤ st.best_norm_ED)
    ∧ (∀ sd st acc ned,
        ("best_accuracy.pth" ∈ (validationUpdate sd st acc ned).2.map Prod.fst
          ↔ st.best_accuracy < acc)
        ∧ ("best_norm_ED.pth" ∈ (validationUpdate sd st acc ned).2.map Prod.fst
          ↔ ned < st.best_norm_ED))
    ∧ ((runValidations [] initBestState
          [(1/2, 1), (3/5, 1), (11/20, 1), (7/10, 1)]).2.filter
        (fun w => w.1 == "best_accuracy.pth")).length = 3 := by
  refine ⟨runValidations_mono, fun sd st acc ned => ?_, ?_⟩
  · unfold validationUpdate
    constructor <;> dsimp only <;> split_ifs with h1 h2 <;> simp_all
  · norm_num [runValidations, validationUpdate, initBestState, init_best_accuracy,
      init_best_norm_ED, List.filter]
    decide

/-- With no padding among the gold indices, the masked position set is the
whole batch. -/
theorem nonPad_eq_univ {n K : ℕ} (gold : Fin n → Fin K)
    (h : ∀ i, (gold i : ℕ) ≠ PAD) : nonPad gold = Finset.univ := by
  rw [nonPad, Finset.filter_eq_self]
  exact fun i _ => h i

/-- The dot product of the smoothed target distribution with any class
vector splits into the true-class weight and the uniform tail. -/
theorem smoothedTarget_dot {K : ℕ} (g : Fin K) (L : Fin K → ℝ) :
    ∑ j, smoothedTarget g j * L j
      = (1 - eps) * L g
        + (eps / ((K : ℝ) - 1)) * ∑ j ∈ Finset.univ.erase g, L j := by
  rw [← Finset.add_sum_erase Finset.univ (fun j => smoothedTarget g j * L j)
    (Finset.mem_univ g)]
  congr 1
  · simp [smoothedTarget, one_hot]
  · rw [Finset.mul_sum]
    refine Finset.sum_congr rfl (fun j hj => ?_)
    have hne : j ≠ g := Finset.ne_of_mem_erase hj
    simp [smoothedTarget, one_hot, hne]

/-- C7: for predictions and targets containing no padding index, the
label-smoothed Transformer loss with epsilon 0.1 is the mean over positions
of the weighted negative log-softmax terms, true class weighted by 1 - eps
and the other K - 1 classes by eps / (K - 1); with smoothing disabled the
loss is plain cross entropy ignoring the padding index. -/
theorem transformer_loss_C7 {n K : ℕ} (pred : Fin n → Fin K → ℝ)
    (gold : Fin n → Fin K) (h : ∀ i, (gold i : ℕ) ≠ PAD) :
    transformer_loss pred gold true =
      (∑ i, (-(1 - eps) * logSoftmax (pred i) (gold i)
        - (eps / ((K : ℝ) - 1)) * ∑ j ∈ Finset.univ.erase (gold i), logSoftmax (pred i) j))
        / (n : ℝ)
    ∧ transformer_loss pred gold false = cross_entropy pred gold := by
  refine ⟨?_, rfl⟩
  show (∑ i ∈ nonPad gold, -(∑ j, smoothedTarget (gold i) j * logSoftmax (pred i) j))
      / ((nonPad gold).card : ℝ) = _
  rw [nonPad_eq_univ gold h, Finset.card_univ, Fintype.card_fin]
  congr 1
  refine Finset.sum_congr rfl (fun i _ => ?_)
  rw [smoothedTarget_dot (gold i) (fun j => logSoftmax (pred i) j)]
  ring

/-- Concrete prediction matrix for the C7 witness: 2 positions, 3 classes. -/
noncomputable def pred7 : Fin 2 → Fin 3 → ℝ := fun i j => (i : ℕ) + 2 * (j : ℕ)

/-- Concrete gold indices for the C7 witness: both positions point at
class 1, never at the padding index. -/
def gold7 : Fin 2 → Fin 3 := fun _ => ⟨1, by omega⟩

/-- C7 witness: the smoothed-loss identity and the plain cross-entropy
identity instantiated at a concrete padding-free batch. -/
theorem transformer_loss_C7_witness :
    ((gold7 0 : ℕ) ≠ PAD ∧ (gold7 1 : ℕ) ≠ PAD)
    ∧ (transformer_loss pred7 gold7 true =
        (∑ i, (-(1 - eps) * logSoftmax (pred7 i) (gold7 i)
          - (eps / (((3 : ℕ) : ℝ) - 1))
            * ∑ j ∈ Finset.univ.erase (gold7 i), logSoftmax (pred7 i) j))
          / (((2 : ℕ) : ℝ))
       ∧ transformer_loss pred7 gold7 false = cross_entropy pred7 gold7) :=
  ⟨⟨by decide, by decide⟩, transformer_loss_C7 pred7 gold7 (by decide)⟩

